import Mathlib

/-!
Shallow embedding of the `headless` repository (startup.py, docker_manager.py,
simulation_manager.py) and verification of the frozen claims about it.

Conventions of the embedding:
* Python `subprocess.run` calls are modelled through an environment `DockerEnv`
  that maps each external invocation to an outcome (`ExecOutcome`); every
  operation returns its value together with the list of external command lines
  it invoked, so "does not invoke docker run" is a statement about that trace.
* Python dicts are modelled as association lists in insertion order (CPython
  dicts preserve insertion order, which is the order the source iterates in).
* Python truthiness (`if name:`, `if volumes:`, `if command:`) is modelled
  explicitly: `None`, the empty string, the empty dict and the empty list are
  falsy.
* `str.split()` with no argument (whitespace split dropping empty fields) is
  modelled by `pySplit` below.
-/

/-- The single-quote character as a string (used in the source's f-strings,
e.g. `f"Failed to pull image '{image_name}'"`). -/
def squote : String := String.singleton (Char.ofNat 39)

/-- Helper for `pySplit`: scans the character list, accumulating the current
word in `acc` (reversed); a whitespace character closes the current word. -/
def splitWsAux (p : Char → Bool) : List Char → List Char → List (List Char)
  | [], acc => if acc.isEmpty then [] else [acc.reverse]
  | c :: cs, acc =>
      if p c then
        if acc.isEmpty then splitWsAux p cs []
        else acc.reverse :: splitWsAux p cs []
      else splitWsAux p cs (c :: acc)

/-- Python `str.split()` with no separator: split on runs of whitespace,
discarding empty fields (`"a  b ".split() == ["a", "b"]`). -/
def pySplit (s : String) : List String :=
  (splitWsAux Char.isWhitespace s.data []).map String.mk

/-- Python `str.strip()` with no argument: remove leading and trailing
whitespace. -/
def pyStrip (s : String) : String :=
  String.mk
    (((s.data.dropWhile Char.isWhitespace).reverse.dropWhile
        Char.isWhitespace).reverse)

/-! ## docker_manager.py -/

/-- Outcome of one `subprocess.run` invocation: normal completion with a
return code, stdout and stderr; a `subprocess.TimeoutExpired`; or some other
raised exception carrying a message. -/
inductive ExecOutcome where
  | completed (rc : Int) (stdout stderr : String)
  | timedOut
  | raised (msg : String)
deriving Repr, DecidableEq

/-- The result dictionary `run_docker` returns:
`{"success": ..., "output": ..., "error": ..., "return_code": ...}`. -/
structure RunResult where
  success : Bool
  output : String
  error : String
  return_code : Int
deriving Repr, DecidableEq

/-- The `command` argument of `run_docker`: the source accepts a string
(later whitespace-split) or a list of tokens. -/
inductive PyCommand where
  | str (s : String)
  | list (l : List String)
deriving Repr, DecidableEq

/-- The keyword arguments of `DockerManager.run_docker`, with the source's
defaults. Dicts are association lists in insertion order. -/
structure RunOpts where
  image_name : String
  command : Option PyCommand := none
  volumes : List (String × String) := []
  ports : List (String × String) := []
  environment : List (String × String) := []
  name : Option String := none
  detach : Bool := false
  remove : Bool := true
  interactive : Bool := false
  tty : Bool := false
  working_dir : Option String := none
  user : Option String := none
  network : Option String := none
  extra_args : Option (List String) := none

/-- Environment supplying the outcome of each external `subprocess.run`
call and of `json.loads` (library behaviour, not repository code):
`imagesExec` answers `docker images -q IMG`, `pullExec` answers
`docker pull IMG`, `runExec` answers the built `docker run ...` line,
`psExec` answers `docker ps` (keyed by the `-a` flag), `stopExec` answers
`docker stop ID`; `jsonOk line` says whether `json.loads(line)` succeeds. -/
structure DockerEnv where
  imagesExec : String → ExecOutcome
  pullExec : String → ExecOutcome
  runExec : List String → ExecOutcome
  psExec : Bool → ExecOutcome
  stopExec : String → ExecOutcome
  jsonOk : String → Bool

/-- `DockerManager`: `__init__` stores the result of the availability
check in `self.docker_available`. -/
structure DockerManager where
  docker_available : Bool

/-- `DockerManager.check_image`: returns `False` when Docker is unavailable;
otherwise runs `docker images -q IMG` and returns `True` iff the return code
is 0 and the stripped stdout is non-empty; any timeout or exception yields
`False`. Second component: the external command lines invoked. -/
def DockerManager.check_image (m : DockerManager) (env : DockerEnv)
    (image_name : String) : Bool × List (List String) :=
  if m.docker_available = false then (false, [])
  else
    match env.imagesExec image_name with
    | .completed rc stdout _ =>
        (decide (rc = 0) && decide (pyStrip stdout ≠ ""),
         [["docker", "images", "-q", image_name]])
    | .timedOut => (false, [["docker", "images", "-q", image_name]])
    | .raised _ => (false, [["docker", "images", "-q", image_name]])

/-- `DockerManager.pull_image`: returns `False` when Docker is unavailable;
otherwise runs `docker pull IMG` and returns `True` iff the return code is 0;
timeouts and exceptions yield `False`. -/
def DockerManager.pull_image (m : DockerManager) (env : DockerEnv)
    (image_name : String) : Bool × List (List String) :=
  if m.docker_available = false then (false, [])
  else
    match env.pullExec image_name with
    | .completed rc _ _ =>
        (decide (rc = 0), [["docker", "pull", image_name]])
    | .timedOut => (false, [["docker", "pull", image_name]])
    | .raised _ => (false, [["docker", "pull", image_name]])

/-- One `if FLAG_OPTION: cmd.append(TOK)` statement of `run_docker`
(source lines 177-184). -/
def addFlag (b : Bool) (tok : String) (cmd : List String) : List String :=
  if b then cmd ++ [tok] else cmd

/-- One `if OPT: cmd.extend([FLAG, OPT])` statement for an optional string
argument (`--name`, `-w`, `-u`, `--network`; source lines 187-188 and
205-215): Python truthiness skips `None` and the empty string. -/
def addOptStrArg (flag : String) (v : Option String) (cmd : List String) :
    List String :=
  match v with
  | some s => if s = "" then cmd else cmd ++ [flag, s]
  | none => cmd

/-- One `if DICT: for k, v in DICT.items(): cmd.extend([FLAG, f"k<sep>v"])`
loop (volumes/ports/environment; source lines 190-203): Python truthiness
skips `None` and the empty dict; iteration is in insertion order. -/
def addPairArgs (flag sep : String) (entries : List (String × String))
    (cmd : List String) : List String :=
  if entries = [] then cmd
  else cmd ++ entries.flatMap (fun p => [flag, p.1 ++ sep ++ p.2])

/-- The `if extra_args: cmd.extend(extra_args)` statement (source lines
217-219). -/
def addExtraArgs (v : Option (List String)) (cmd : List String) :
    List String :=
  match v with
  | some ea => if ea = [] then cmd else cmd ++ ea
  | none => cmd

/-- The trailing `if command:` block (source lines 224-229): a string is
appended whitespace-split (`command.split()`), a list verbatim. -/
def addCommand (v : Option PyCommand) (cmd : List String) : List String :=
  match v with
  | some (.str s) => if s = "" then cmd else cmd ++ pySplit s
  | some (.list l) => if l = [] then cmd else cmd ++ l
  | none => cmd

/-- The `docker run` argument list `DockerManager.run_docker` builds
(source lines 173-229), as the sequential `cmd.append`/`cmd.extend`
statements applied in source order to the accumulator starting from
`["docker", "run"]`. -/
def buildRunCmd (o : RunOpts) : List String :=
  let cmd := ["docker", "run"]
  let cmd := addFlag o.detach "-d" cmd
  let cmd := addFlag o.remove "--rm" cmd
  let cmd := addFlag o.interactive "-i" cmd
  let cmd := addFlag o.tty "-t" cmd
  let cmd := addOptStrArg "--name" o.name cmd
  let cmd := addPairArgs "-v" ":" o.volumes cmd
  let cmd := addPairArgs "-p" ":" o.ports cmd
  let cmd := addPairArgs "-e" "=" o.environment cmd
  let cmd := addOptStrArg "-w" o.working_dir cmd
  let cmd := addOptStrArg "-u" o.user cmd
  let cmd := addOptStrArg "--network" o.network cmd
  let cmd := addExtraArgs o.extra_args cmd
  let cmd := cmd ++ [o.image_name]
  addCommand o.command cmd

/-- `DockerManager.run_docker`: short-circuits when Docker is unavailable;
otherwise checks the image locally, pulls it when absent (a failed pull
aborts), then builds and executes the `docker run` line; the detached branch
strips the captured output, the attached branch does not; timeouts and
exceptions map to a failure record with return code -1. -/
def DockerManager.run_docker (m : DockerManager) (env : DockerEnv)
    (o : RunOpts) : RunResult × List (List String) :=
  if m.docker_available = false then
    ({ success := false, output := "", error := "Docker is not available",
       return_code := -1 }, [])
  else
    let ci := m.check_image env o.image_name
    let afterPull : Option (List (List String)) :=
      if ci.1 = false then
        let pi := m.pull_image env o.image_name
        if pi.1 = false then none else some (ci.2 ++ pi.2)
      else some ci.2
    match afterPull with
    | none =>
        ({ success := false, output := "",
           error := "Failed to pull image " ++ squote ++ o.image_name ++ squote,
           return_code := -1 },
         ci.2 ++ (m.pull_image env o.image_name).2)
    | some tracePre =>
        let cmd := buildRunCmd o
        match env.runExec cmd with
        | .completed rc stdout stderr =>
            if o.detach then
              ({ success := decide (rc = 0), output := pyStrip stdout,
                 error := pyStrip stderr, return_code := rc }, tracePre ++ [cmd])
            else
              ({ success := decide (rc = 0), output := stdout,
                 error := stderr, return_code := rc }, tracePre ++ [cmd])
        | .timedOut =>
            ({ success := false, output := "",
               error := "Timeout running container " ++ squote ++ o.image_name ++ squote,
               return_code := -1 }, tracePre ++ [cmd])
        | .raised msg =>
            ({ success := false, output := "",
               error := "Error running container " ++ squote ++ o.image_name ++ squote
                 ++ ": " ++ msg,
               return_code := -1 }, tracePre ++ [cmd])

/-- `DockerManager.list_containers`: empty list when Docker is unavailable;
otherwise runs `docker ps --format json` (plus `-a` when requested), splits
the stripped stdout into lines and `json.loads` each non-empty line; a
non-zero return code or any raised exception yields the empty list. A parsed
container record is represented by its source line. -/
def DockerManager.list_containers (m : DockerManager) (env : DockerEnv)
    (all_containers : Bool) : List String × List (List String) :=
  if m.docker_available = false then ([], [])
  else
    let cmd := ["docker", "ps", "--format", "json"]
      ++ (if all_containers then ["-a"] else [])
    match env.psExec all_containers with
    | .completed rc stdout _ =>
        if rc = 0 then
          let lines := ((pyStrip stdout).splitOn "\n").filter (fun l => l ≠ "")
          if lines.all env.jsonOk then (lines, [cmd]) else ([], [cmd])
        else ([], [cmd])
    | .timedOut => ([], [cmd])
    | .raised _ => ([], [cmd])

/-- `DockerManager.stop_container`: returns `False` when Docker is
unavailable; otherwise runs `docker stop ID` and returns `True` iff the
return code is 0; any exception yields `False`. -/
def DockerManager.stop_container (m : DockerManager) (env : DockerEnv)
    (container_id : String) : Bool × List (List String) :=
  if m.docker_available = false then (false, [])
  else
    match env.stopExec container_id with
    | .completed rc _ _ =>
        (decide (rc = 0), [["docker", "stop", container_id]])
    | .timedOut => (false, [["docker", "stop", container_id]])
    | .raised _ => (false, [["docker", "stop", container_id]])

/-- The module-level names `docker_manager.py` defines (class, global
manager accessor and the convenience wrappers at lines 359-392). -/
def dockerManagerModuleDefs : List String :=
  ["DockerManager", "get_docker_manager", "check_image", "run_docker",
   "pull_image", "list_containers", "stop_container"]

/-- The names `startup.py` line 4 imports from `docker_manager`. -/
def startupImportsFromDockerManager : List String :=
  ["run_docker", "check_image", "stop_and_remove_container"]

/-! ## simulation_manager.py -/

/-- The `SimulationSetup` object. `simulation_app` models the
`self.simulation_app` reference (`some ()` while a `SimulationApp` object is
referenced, `none` for Python `None`); `closeCalls` instruments how many
times `self.simulation_app.close()` has been invoked on the vendor handle,
so double-free is observable in the model. -/
structure SimulationSetup where
  simulation_app : Option Unit
  closeCalls : Nat
deriving Repr, DecidableEq

/-- `SimulationSetup.shutdown` (source lines 100-104): calls
`self.simulation_app.close()` whenever the reference is truthy. The source
never assigns `self.simulation_app = None`, so the reference stays set. -/
def SimulationSetup.shutdown (s : SimulationSetup) : SimulationSetup :=
  match s.simulation_app with
  | some _ => { s with closeCalls := s.closeCalls + 1 }
  | none => s

/-- The module-level globals of `simulation_manager.py`:
`_global_sim_setup` and `_keep_running` (initialised to `True`), plus
`closeCalls`, the running total of vendor-handle `close()` invocations
(carried at module level so it survives dropping the setup object). -/
structure SimState where
  global_sim_setup : Option SimulationSetup
  keep_running : Bool
  closeCalls : Nat
deriving Repr, DecidableEq

/-- `set_keep_running` (source lines 111-114): assigns its argument to the
global `_keep_running`. -/
def set_keep_running (value : Bool) (st : SimState) : SimState :=
  { st with keep_running := value }

/-- Module-level `shutdown` (source lines 150-158): sets `_keep_running`
to `False`; when a setup object exists, calls its `shutdown` and nulls the
global reference; otherwise only prints. The `closeCalls` delta of the
object-level shutdown is folded into the module counter. -/
def shutdown (st : SimState) : SimState :=
  let st1 := { st with keep_running := false }
  match st1.global_sim_setup with
  | some s =>
      let s2 := SimulationSetup.shutdown s
      { st1 with global_sim_setup := none,
                 closeCalls := st1.closeCalls + (s2.closeCalls - s.closeCalls) }
  | none => st1

/-- External behaviour feeding the `keep_alive` loop: `is_running` is the
vendor `app.is_running()` answer in a given state, and `update` is the state
transformation one `app.update()` tick may cause (this includes flag writes
performed concurrently by the timeout thread while the loop runs). -/
structure AppEnv where
  is_running : SimState → Bool
  update : SimState → SimState

/-- The `while _keep_running and app.is_running(): app.update()` loop of the
module-level `keep_alive` (source lines 176-177), with explicit fuel;
returns how many `app.update()` calls were performed. -/
def keepAliveLoop (env : AppEnv) : Nat → SimState → Nat
  | 0, _ => 0
  | n + 1, st =>
      if st.keep_running && env.is_running st then
        1 + keepAliveLoop env n (env.update st)
      else 0

/-- Module-level `keep_alive` (source lines 171-181; the identical
definition at lines 116-126 is shadowed by this one): loops only when a
setup object exists, otherwise prints and returns. Result: the number of
`app.update()` calls performed. -/
def keep_alive (env : AppEnv) (fuel : Nat) (st : SimState) : Nat :=
  match st.global_sim_setup with
  | some _ => keepAliveLoop env fuel st
  | none => 0

/-! ## startup.py -/

/-- `timeout_monitor` (startup.py lines 11-18), after its `time.sleep`:
`set_keep_running(False)` then `shutdown()`. -/
def timeout_monitor (st : SimState) : SimState :=
  shutdown (set_keep_running false st)

/-- The flag-relevant operations reachable in a run after startup: the
timeout thread firing, the `KeyboardInterrupt` handler in `main`
(`set_keep_running(False)`), the teardown `shutdown()` call at the end of
`main`, and an `app.update()` tick (which does not touch the flag). -/
inductive RunEvent where
  | timeoutFires
  | keyboardInterrupt
  | teardownShutdown
  | appUpdate
deriving Repr, DecidableEq

/-- Effect of each reachable operation on the module state: every call site
of `set_keep_running` in the repository passes `False`. -/
def stepEvent (st : SimState) : RunEvent → SimState
  | .timeoutFires => timeout_monitor st
  | .keyboardInterrupt => set_keep_running false st
  | .teardownShutdown => shutdown st
  | .appUpdate => st

/-- Outcomes of the fallible steps of `main` (startup.py): whether
`run_isaac_sim` returns a setup object, whether `start_simulation()`
returns `True`, and whether the robot `run_docker` call reports success
(`robot_result["success"]`). -/
structure MainEnv where
  simSetupOk : Bool
  startSimOk : Bool
  runDockerSuccess : Bool

/-- The externally visible calls `main` makes, in order. -/
inductive MainEvent where
  | runIsaacSimCall
  | startSimulationCall
  | runDockerCall
  | timeoutThreadStart
  | keepAliveCall
  | stopAndRemoveCall (container : String)
  | shutdownCall
deriving Repr, DecidableEq

namespace Startup

/-- The function `main` (startup.py lines 20-90) as the trace of calls it
performs: a `None` setup returns at once; a failed `start_simulation`
returns before the container launch; the robot container is launched with
name `robot_container`; whether or not `robot_result["success"]` holds,
`main` then starts the timeout thread, enters `keep_alive`, and at teardown
calls `stop_and_remove_container("robot_container")` once and `shutdown()`. -/
def main (env : MainEnv) : List MainEvent :=
  let t0 := [MainEvent.runIsaacSimCall]
  if env.simSetupOk = false then t0
  else
    let t1 := t0 ++ [MainEvent.startSimulationCall]
    if env.startSimOk = false then t1
    else
      let t2 := t1 ++ [MainEvent.runDockerCall]
      t2 ++ [MainEvent.timeoutThreadStart, MainEvent.keepAliveCall,
             MainEvent.stopAndRemoveCall "robot_container",
             MainEvent.shutdownCall]

end Startup

/-! ## Canonical segments of the `docker run` argument list (for stating the
one-to-one translation claim about `buildRunCmd`) -/

/-- One boolean flag of `docker run`: present exactly when the option is
true. -/
def flagSeg (b : Bool) (tok : String) : List String :=
  if b then [tok] else []

/-- A `FLAG value` pair present exactly when the optional string is truthy
(given and non-empty). -/
def optStrSeg (flag : String) (v : Option String) : List String :=
  match v with
  | some s => if s = "" then [] else [flag, s]
  | none => []

/-- One `FLAG a<sep>b` pair per dict entry, in insertion order. -/
def pairSeg (flag sep : String) (l : List (String × String)) : List String :=
  l.flatMap (fun p => [flag, p.1 ++ sep ++ p.2])

/-- The extra arguments appended verbatim when given. -/
def extraSeg (v : Option (List String)) : List String :=
  match v with
  | some l => l
  | none => []

/-- The trailing container-command tokens: a string is whitespace-split, a
list is appended verbatim, `None` contributes nothing. -/
def commandTokens (c : Option PyCommand) : List String :=
  match c with
  | some (.str s) => pySplit s
  | some (.list l) => l
  | none => []

/-! ## Concrete instances used by witnesses -/

/-- A concrete environment in which no image is local, pulls fail, and every
other invocation completes with return code 0. -/
def failPullEnv : DockerEnv where
  imagesExec := fun _ => .completed 0 "" ""
  pullExec := fun _ => .completed 1 "" "pull failed"
  runExec := fun _ => .completed 0 "" ""
  psExec := fun _ => .completed 0 "" ""
  stopExec := fun _ => .completed 0 "" ""
  jsonOk := fun _ => true

/-- A concrete app environment whose vendor app always reports running and
whose update ticks leave the state unchanged. -/
def alwaysRunningApp : AppEnv where
  is_running := fun _ => true
  update := fun st => st

/-- A concrete module state: setup object present, flag already cleared. -/
def clearedState : SimState where
  global_sim_setup := some { simulation_app := some (), closeCalls := 0 }
  keep_running := false
  closeCalls := 0

/-- A concrete `MainEnv`: setup and playback succeed, the robot container
fails to start. -/
def envDockerFails : MainEnv where
  simSetupOk := true
  startSimOk := true
  runDockerSuccess := false

/-! ## Lemmas -/

lemma str_append_ne_left (a b : String) (h : a ≠ "") : a ++ b ≠ "" := by
  intro hc
  apply h
  apply String.ext
  have hd : a.data ++ b.data = [] := by
    simpa [String.data_append] using congrArg String.data hc
  simp [(List.append_eq_nil.mp hd).1]

lemma shutdown_keep_running (st : SimState) :
    (shutdown st).keep_running = false := by
  cases hg : st.global_sim_setup <;> simp [shutdown, hg]

lemma stepEvent_keep_running (st : SimState) (e : RunEvent)
    (h : st.keep_running = false) :
    (stepEvent st e).keep_running = false := by
  cases e <;>
    simp [stepEvent, timeout_monitor, set_keep_running, shutdown_keep_running, h]

/-! ## Claims -/

/-- Claim C4: for every `DockerManager` whose availability check failed
(`docker_available = false`), every subsequent container operation
short-circuits without invoking any external command: `check_image`,
`pull_image` and `stop_container` return `False`, `list_containers` returns
the empty list, and `run_docker` returns a record with `success = False`,
error `"Docker is not available"` and return code -1; all invocation traces
are empty. -/
theorem docker_unavailable_short_circuits
    (m : DockerManager) (env : DockerEnv) (o : RunOpts)
    (img cid : String) (allc : Bool)
    (h : m.docker_available = false) :
    m.check_image env img = (false, []) ∧
    m.pull_image env img = (false, []) ∧
    m.stop_container env cid = (false, []) ∧
    m.list_containers env allc = ([], []) ∧
    m.run_docker env o =
      ({ success := false, output := "", error := "Docker is not available",
         return_code := -1 }, []) := by
  refine ⟨?_, ?_, ?_, ?_, ?_⟩ <;>
    simp [DockerManager.check_image, DockerManager.pull_image,
          DockerManager.stop_container, DockerManager.list_containers,
          DockerManager.run_docker, h]

theorem docker_unavailable_short_circuits_witness :
    (⟨false⟩ : DockerManager).docker_available = false ∧
    ((⟨false⟩ : DockerManager).check_image failPullEnv "alpine:latest"
        = (false, []) ∧
     (⟨false⟩ : DockerManager).pull_image failPullEnv "alpine:latest"
        = (false, []) ∧
     (⟨false⟩ : DockerManager).stop_container failPullEnv "robot_container"
        = (false, []) ∧
     (⟨false⟩ : DockerManager).list_containers failPullEnv false = ([], []) ∧
     (⟨false⟩ : DockerManager).run_docker failPullEnv
        { image_name := "alpine:latest" }
        = ({ success := false, output := "",
             error := "Docker is not available", return_code := -1 }, [])) :=
  ⟨rfl, docker_unavailable_short_circuits ⟨false⟩ failPullEnv
    { image_name := "alpine:latest" } "alpine:latest" "robot_container"
    false rfl⟩

/-- Claim C5: the module-level `shutdown` is idempotent: for every state,
running it twice leaves the state (flag, global reference and close
counter) equal to the state after running it once, and the model is a total
function, so the second call does not error: it takes the no-simulation
branch. -/
theorem shutdown_idempotent (st : SimState) :
    shutdown (shutdown st) = shutdown st := by
  cases hg : st.global_sim_setup <;> simp [shutdown, hg]

/-- Claim C6 counterexample: `SimulationSetup.shutdown` does not null
`self.simulation_app`, so a second call on the same object invokes `close()`
on the already-closed vendor handle: starting from a fresh setup object, two
object-level shutdown calls perform two `close()` invocations. -/
theorem simulation_setup_double_close :
    (SimulationSetup.shutdown (SimulationSetup.shutdown
      { simulation_app := some (), closeCalls := 0 })).closeCalls = 2 := by
  rfl

/-- Claim C6 amended: the use-after-close protection lives at the module
level, not in `SimulationSetup`: the module-level `shutdown` nulls the
global reference after closing, so a repeated module-level `shutdown`
performs no additional `close()` on the vendor handle. -/
theorem module_shutdown_no_double_close (st : SimState) :
    (shutdown (shutdown st)).closeCalls = (shutdown st).closeCalls := by
  cases hg : st.global_sim_setup <;> simp [shutdown, hg]

/-- Claim C7: whenever the lifecycle flag `_keep_running` is false, the
module-level `keep_alive` performs no `app.update()` call at all, for every
fuel bound and every vendor behaviour (in particular even when
`app.is_running()` would answer true). -/
theorem keep_alive_no_update_when_flag_cleared
    (env : AppEnv) (fuel : Nat) (st : SimState)
    (h : st.keep_running = false) :
    keep_alive env fuel st = 0 := by
  cases hg : st.global_sim_setup with
  | none => simp [keep_alive, hg]
  | some s =>
      cases fuel <;> simp [keep_alive, hg, keepAliveLoop, h]

theorem keep_alive_no_update_witness :
    clearedState.keep_running = false ∧
    keep_alive alwaysRunningApp 1000 clearedState = 0 :=
  ⟨rfl, keep_alive_no_update_when_flag_cleared alwaysRunningApp 1000
    clearedState rfl⟩

/-- Claim C2: the lifecycle flag, once false, never becomes true again
during a run: every sequence of operations reachable after shutdown or
timeout (timeout firing, the interrupt handler, the teardown shutdown, app
update ticks — every repository call site of `set_keep_running` passes
`False`) preserves `_keep_running = False`. -/
theorem keep_running_once_false_stays_false
    (evs : List RunEvent) (st : SimState)
    (h : st.keep_running = false) :
    (evs.foldl stepEvent st).keep_running = false := by
  induction evs generalizing st with
  | nil => exact h
  | cons e es ih => exact ih _ (stepEvent_keep_running st e h)

theorem keep_running_once_false_stays_false_witness :
    clearedState.keep_running = false ∧
    ([RunEvent.appUpdate, RunEvent.timeoutFires, RunEvent.keyboardInterrupt,
      RunEvent.teardownShutdown].foldl stepEvent clearedState).keep_running
      = false :=
  ⟨rfl, keep_running_once_false_stays_false _ clearedState rfl⟩

/-- Claim C8: in `main`, a failed robot-container start is non-fatal —
whenever setup and playback succeed, the timeout thread is started and
`keep_alive` is entered for every value of `robot_result["success"]`
(in particular `False`) — whereas a failed `start_simulation` makes `main`
return before launching the container (no `run_docker`, no `keep_alive`). -/
theorem container_failure_nonfatal (env : MainEnv)
    (hsetup : env.simSetupOk = true) :
    (env.startSimOk = true →
       MainEvent.timeoutThreadStart ∈ Startup.main env ∧
       MainEvent.keepAliveCall ∈ Startup.main env) ∧
    (env.startSimOk = false →
       MainEvent.runDockerCall ∉ Startup.main env ∧
       MainEvent.keepAliveCall ∉ Startup.main env) := by
  obtain ⟨s1, s2, s3⟩ := env
  simp only at hsetup
  subst hsetup
  cases s2 <;> simp [Startup.main]

theorem container_failure_nonfatal_witness :
    envDockerFails.simSetupOk = true ∧
    ((envDockerFails.startSimOk = true →
        MainEvent.timeoutThreadStart ∈ Startup.main envDockerFails ∧
        MainEvent.keepAliveCall ∈ Startup.main envDockerFails) ∧
     (envDockerFails.startSimOk = false →
        MainEvent.runDockerCall ∉ Startup.main envDockerFails ∧
        MainEvent.keepAliveCall ∉ Startup.main envDockerFails)) :=
  ⟨rfl, container_failure_nonfatal envDockerFails rfl⟩

/-- Claim C1 (evaluating the code at the failing point): `main`'s body does
issue exactly one stop-and-remove call, for the container name
`robot_container`, after the update loop — but the name that `startup.py`
pulls in for it, `stop_and_remove_container`, is not among the names that
`docker_manager.py` defines (which has only `stop_container`), so loading
`startup.py` raises an ImportError before `main` can run. -/
theorem stop_and_remove_import_mismatch :
    "stop_and_remove_container" ∈ startupImportsFromDockerManager ∧
    "stop_and_remove_container" ∉ dockerManagerModuleDefs ∧
    (Startup.main { simSetupOk := true, startSimOk := true,
                    runDockerSuccess := true }).count
        (MainEvent.stopAndRemoveCall "robot_container") = 1 := by
  refine ⟨by decide, by decide, by decide⟩

lemma check_image_trace (m : DockerManager) (env : DockerEnv) (i : String)
    (h : m.docker_available = true) :
    (m.check_image env i).2 = [["docker", "images", "-q", i]] := by
  simp only [DockerManager.check_image, h]
  cases env.imagesExec i <;> simp

lemma pull_image_trace (m : DockerManager) (env : DockerEnv) (i : String)
    (h : m.docker_available = true) :
    (m.pull_image env i).2 = [["docker", "pull", i]] := by
  simp only [DockerManager.pull_image, h]
  cases env.pullExec i <;> simp

lemma images_cmd_not_run (i : String) :
    (["docker", "images", "-q", i] : List String).take 2 ≠ ["docker", "run"] := by
  have h : (["docker", "images", "-q", i] : List String).take 2
      = ["docker", "images"] := rfl
  rw [h]
  decide

lemma pull_cmd_not_run (i : String) :
    (["docker", "pull", i] : List String).take 2 ≠ ["docker", "run"] := by
  have h : (["docker", "pull", i] : List String).take 2
      = ["docker", "pull"] := rfl
  rw [h]
  decide

/-- Claim C3: for every image name, if the local check fails and the pull
fails too, `run_docker` returns a record with `success = False`, return
code -1 and a non-empty error, and no invoked external command line is a
`docker run` line. -/
theorem pull_failure_aborts_run
    (m : DockerManager) (env : DockerEnv) (o : RunOpts)
    (h1 : (m.check_image env o.image_name).1 = false)
    (h2 : (m.pull_image env o.image_name).1 = false) :
    (m.run_docker env o).1.success = false ∧
    (m.run_docker env o).1.return_code = -1 ∧
    (m.run_docker env o).1.error ≠ "" ∧
    ∀ c ∈ (m.run_docker env o).2, c.take 2 ≠ ["docker", "run"] := by
  by_cases hav : m.docker_available = false
  · refine ⟨?_, ?_, ?_, ?_⟩ <;> simp [DockerManager.run_docker, hav]
  · have hav2 : m.docker_available = true := by
      revert hav
      cases m.docker_available <;> simp
    have hrun : m.run_docker env o =
        ({ success := false, output := "",
           error := "Failed to pull image " ++ squote ++ o.image_name
             ++ squote,
           return_code := -1 },
         [["docker", "images", "-q", o.image_name],
          ["docker", "pull", o.image_name]]) := by
      simp [DockerManager.run_docker, hav2, h1, h2,
            check_image_trace m env o.image_name hav2,
            pull_image_trace m env o.image_name hav2]
    refine ⟨by simp [hrun], by simp [hrun], ?_, ?_⟩
    · rw [hrun]
      exact str_append_ne_left _ _ (str_append_ne_left _ _
        (str_append_ne_left _ _ (by decide)))
    · rw [hrun]
      intro c hc
      simp only [List.mem_cons, List.not_mem_nil, or_false] at hc
      rcases hc with rfl | rfl
      · exact images_cmd_not_run o.image_name
      · exact pull_cmd_not_run o.image_name

theorem pull_failure_aborts_run_witness :
    ((⟨true⟩ : DockerManager).check_image failPullEnv "alpine:latest").1
      = false ∧
    ((⟨true⟩ : DockerManager).pull_image failPullEnv "alpine:latest").1
      = false ∧
    (((⟨true⟩ : DockerManager).run_docker failPullEnv
        { image_name := "alpine:latest" }).1.success = false ∧
     ((⟨true⟩ : DockerManager).run_docker failPullEnv
        { image_name := "alpine:latest" }).1.return_code = -1 ∧
     ((⟨true⟩ : DockerManager).run_docker failPullEnv
        { image_name := "alpine:latest" }).1.error ≠ "" ∧
     ∀ c ∈ ((⟨true⟩ : DockerManager).run_docker failPullEnv
        { image_name := "alpine:latest" }).2,
       c.take 2 ≠ ["docker", "run"]) :=
  ⟨by decide, by decide,
   pull_failure_aborts_run ⟨true⟩ failPullEnv
     { image_name := "alpine:latest" } (by decide) (by decide)⟩

lemma addFlag_eq (b : Bool) (t : String) (c : List String) :
    addFlag b t c = c ++ flagSeg b t := by
  cases b <;> simp [addFlag, flagSeg]

lemma addOptStrArg_eq (f : String) (v : Option String) (c : List String) :
    addOptStrArg f v c = c ++ optStrSeg f v := by
  cases v with
  | none => simp [addOptStrArg, optStrSeg]
  | some s => by_cases hs : s = "" <;> simp [addOptStrArg, optStrSeg, hs]

lemma addPairArgs_eq (f sep : String) (l : List (String × String))
    (c : List String) :
    addPairArgs f sep l c = c ++ pairSeg f sep l := by
  cases l <;> simp [addPairArgs, pairSeg]

lemma addExtraArgs_eq (v : Option (List String)) (c : List String) :
    addExtraArgs v c = c ++ extraSeg v := by
  cases v with
  | none => simp [addExtraArgs, extraSeg]
  | some l => cases l <;> simp [addExtraArgs, extraSeg]

lemma pySplit_empty : pySplit "" = [] := by
  simp [pySplit, splitWsAux]

lemma addCommand_eq (v : Option PyCommand) (c : List String) :
    addCommand v c = c ++ commandTokens v := by
  cases v with
  | none => simp [addCommand, commandTokens]
  | some pc =>
      cases pc with
      | str s =>
          by_cases hs : s = "" <;>
            simp [addCommand, commandTokens, hs, pySplit_empty]
      | list l => cases l <;> simp [addCommand, commandTokens]

/-- Claim C9: `run_docker` translates its option keys one-to-one into CLI
arguments: the built argument list is exactly `docker run`, then the
boolean flags `-d`/`--rm`/`-i`/`-t` each present iff its option is true,
then `--name NAME` when a (non-empty) name is given, then one
`-v host:container` pair per volume entry, one `-p host:container` pair per
port entry, one `-e key=value` pair per environment entry (each in
insertion order), then the remaining optional arguments, and it ends with
the image name followed by the container-command tokens. -/
theorem run_docker_cli_translation (o : RunOpts) :
    buildRunCmd o =
      ["docker", "run"]
      ++ flagSeg o.detach "-d"
      ++ flagSeg o.remove "--rm"
      ++ flagSeg o.interactive "-i"
      ++ flagSeg o.tty "-t"
      ++ optStrSeg "--name" o.name
      ++ pairSeg "-v" ":" o.volumes
      ++ pairSeg "-p" ":" o.ports
      ++ pairSeg "-e" "=" o.environment
      ++ optStrSeg "-w" o.working_dir
      ++ optStrSeg "-u" o.user
      ++ optStrSeg "--network" o.network
      ++ extraSeg o.extra_args
      ++ [o.image_name]
      ++ commandTokens o.command := by
  simp [buildRunCmd, addFlag_eq, addOptStrArg_eq, addPairArgs_eq,
        addExtraArgs_eq, addCommand_eq]

lemma splitWsAux_no_ws (p : Char → Bool) (l : List Char) :
    ∀ acc : List Char, (∀ c ∈ acc, p c = false) →
    ∀ w ∈ splitWsAux p l acc, ∀ c ∈ w, p c = false := by
  induction l with
  | nil =>
      intro acc hacc w hw c hc
      by_cases ha : acc.isEmpty
      · simp [splitWsAux, ha] at hw
      · simp [splitWsAux, ha] at hw
        subst hw
        exact hacc c (by simpa using hc)
  | cons a as ih =>
      intro acc hacc w hw c hc
      by_cases hp : p a = true
      · by_cases ha : acc.isEmpty
        · simp [splitWsAux, hp, ha] at hw
          exact ih [] (by simp) w hw c hc
        · simp [splitWsAux, hp, ha] at hw
          rcases hw with rfl | hw
          · exact hacc c (by simpa using hc)
          · exact ih [] (by simp) w hw c hc
      · simp [splitWsAux, hp] at hw
        refine ih (a :: acc) ?_ w hw c hc
        intro x hx
        rcases List.mem_cons.mp hx with rfl | hx
        · simpa using hp
        · exact hacc x hx

lemma pySplit_no_whitespace (s : String) :
    ∀ t ∈ pySplit s, ∀ c ∈ t.data, c.isWhitespace = false := by
  intro t ht c hc
  simp only [pySplit, List.mem_map] at ht
  obtain ⟨w, hw, rfl⟩ := ht
  exact splitWsAux_no_ws Char.isWhitespace s.data [] (by simp) w hw c
    (by simpa using hc)

/-- Claim C10 (implicit): when `run_docker` is given the container command
as a string, the string is whitespace-split into separate argv tokens and
appended after the image name; no produced token contains any whitespace
character, so a space-containing argument necessarily reaches the container
as multiple tokens rather than one. -/
theorem command_string_whitespace_split (o : RunOpts) (s : String)
    (h : o.command = some (PyCommand.str s)) :
    buildRunCmd o = buildRunCmd { o with command := none } ++ pySplit s ∧
    ∀ t ∈ pySplit s, ∀ c ∈ t.data, c.isWhitespace = false := by
  refine ⟨?_, pySplit_no_whitespace s⟩
  simp [buildRunCmd, h, addCommand_eq, commandTokens]

theorem command_string_whitespace_split_witness :
    ({ image_name := "alpine:latest",
       command := some (PyCommand.str "echo hello world") } : RunOpts).command
      = some (PyCommand.str "echo hello world") ∧
    (buildRunCmd { image_name := "alpine:latest",
                   command := some (PyCommand.str "echo hello world") } =
       buildRunCmd { image_name := "alpine:latest" }
         ++ pySplit "echo hello world" ∧
     ∀ t ∈ pySplit "echo hello world", ∀ c ∈ t.data,
       c.isWhitespace = false) :=
  ⟨rfl, command_string_whitespace_split
    { image_name := "alpine:latest",
      command := some (PyCommand.str "echo hello world") }
    "echo hello world" rfl⟩
